import Mathlib

/-!
Shallow embedding of the rate-governed Zotero Web API client
(`src/zotero-api.ts`, class `ZoteroClient`) and of the MCP tool handlers
built on it (`src/index.ts`).

Modelling conventions:
  * Wall-clock instants are `Nat` milliseconds (`Date.now()`).  The clock is
    idealized: `sleep(ms)` advances the clock by exactly `ms` and the single
    network exchange of a call takes `d1` milliseconds, supplied as a
    parameter.  Clock monotonicity (`lastRequestTime ≤ now`) appears as a
    hypothesis where a theorem needs it; with it, the `Nat` truncated
    subtractions below agree with the JavaScript number arithmetic.
  * An HTTP `Response` is a record of the fields the client inspects: the
    status, the parsed `Backoff` / `Retry-After` / `Total-Results` headers
    (`Option Nat`, `none` when the header is absent), and the body text
    (`none` models a body read that fails).  `Response.ok` is derived from
    the status as in the fetch specification (200..299).
  * Thrown `Error` values become `Except ZError _`; `ZError` keeps the
    operation context, the status, the reason string and the body diagnostic
    separately, and `ZError.message` renders the exact thrown message.
-/

/-- Rate state owned by one `ZoteroClient` instance: `lastRequestTime` is the
`Date.now()` of the last sent request, `backoffUntil` the deadline until which
all requests must be deferred.  Both start at 0. -/
structure RateState where
  lastRequestTime : Nat := 0
  backoffUntil : Nat := 0
deriving Repr, DecidableEq

/-- The response fields read by `ZoteroClient`.  Header fields hold the parsed
numeric value of the header, `none` when the header is absent;
`bodyText = none` models a failing `response.text()`. -/
structure Response where
  status : Nat
  backoffHeader : Option Nat := none
  retryAfter : Option Nat := none
  totalResults : Option Nat := none
  bodyText : Option String := some ""
deriving Repr, DecidableEq

/-- Fetch-API derived success flag: `ok` is true exactly for statuses
200..299. -/
def Response.ok (r : Response) : Bool :=
  200 ≤ r.status && r.status ≤ 299

/-- `ZoteroClient.MIN_INTERVAL_MS`: minimum spacing between requests. -/
def MIN_INTERVAL_MS : Nat := 1000

/-- Instant at which the cooldown wait of `rateLimitedFetch` ends: the code
sleeps `backoffUntil - now` when `backoffUntil > now`, otherwise not at all. -/
def cooldownWaitEnd (st : RateState) (now : Nat) : Nat :=
  if st.backoffUntil > now then st.backoffUntil else now

/-- Send instant of the governed request of `rateLimitedFetch`: after the
cooldown wait, if less than `MIN_INTERVAL_MS` elapsed since
`lastRequestTime`, sleep the difference; the request is sent when both waits
are over. -/
def entrySendTime (st : RateState) (now : Nat) : Nat :=
  if cooldownWaitEnd st now - st.lastRequestTime < MIN_INTERVAL_MS then
    cooldownWaitEnd st now +
      (MIN_INTERVAL_MS - (cooldownWaitEnd st now - st.lastRequestTime))
  else
    cooldownWaitEnd st now

/-- Wait before the single 429 retry: `Retry-After` seconds when the header is
present, otherwise 5000 ms. -/
def retryWaitMs (r : Response) : Nat :=
  match r.retryAfter with
  | some s => s * 1000
  | none => 5000

/-- `backoffUntil` after the first response is examined: a present `Backoff`
header of `b` seconds sets it to the arrival instant plus `b * 1000`,
otherwise it is left unchanged. -/
def backoffAfter (st : RateState) (arrival : Nat) (r : Response) : Nat :=
  match r.backoffHeader with
  | some b => arrival + b * 1000
  | none => st.backoffUntil

/-- Observable trace of one `rateLimitedFetch` call: the response handed back
to the caller, the rate state afterwards, and the `Date.now()` instants at
which `fetch` was invoked. -/
structure FetchTrace where
  response : Response
  state : RateState
  sendTimes : List Nat
deriving Repr, DecidableEq

/-- `ZoteroClient.rateLimitedFetch`: wait out the cooldown, then the minimum
interval, record the send timestamp and fetch.  The first response arrives
`d1` ms after the send; its `Backoff` header updates `backoffUntil`.  On a
429 status the call sleeps `retryWaitMs`, records the new send timestamp and
issues the same request exactly once more (a bare `fetch`, whose response is
returned unexamined); otherwise the first response is returned. -/
def rateLimitedFetch (st : RateState) (now d1 : Nat) (r1 r2 : Response) :
    FetchTrace :=
  if r1.status == 429 then
    { response := r2,
      state := { lastRequestTime := entrySendTime st now + d1 + retryWaitMs r1,
                 backoffUntil := backoffAfter st (entrySendTime st now + d1) r1 },
      sendTimes := [entrySendTime st now,
                    entrySendTime st now + d1 + retryWaitMs r1] }
  else
    { response := r1,
      state := { lastRequestTime := entrySendTime st now,
                 backoffUntil := backoffAfter st (entrySendTime st now + d1) r1 },
      sendTimes := [entrySendTime st now] }

/-- Fixture: a plain success response. -/
def okRes : Response := { status := 200 }

/-- Fixture: a throttling response carrying a 2 second retry directive. -/
def throttled2 : Response := { status := 429, retryAfter := some 2 }

/-- Fixture: a success response carrying a 3 second `Backoff` directive. -/
def backoff3 : Response := { status := 200, backoffHeader := some 3 }

/-- Typed failure thrown by `ZoteroClient.throwOnError`: operation context,
HTTP status, the human-readable reason, and the body diagnostic. -/
structure ZError where
  context : String
  status : Nat
  reason : String
  body : String
deriving Repr, DecidableEq

/-- Rendering of the thrown `Error` message:
`` `${context}: ${msg}${body ? ` — ${body}` : ""}` ``. -/
def ZError.message (e : ZError) : String :=
  e.context ++ ": " ++ e.reason ++ (if e.body = "" then "" else " — " ++ e.body)

/-- The fixed status → reason table of `throwOnError` (`messages`). -/
def statusMessages (status : Nat) : Option String :=
  if status = 400 then some "Bad request — check parameters"
  else if status = 403 then some "Forbidden — invalid API key or insufficient permissions"
  else if status = 404 then some "Not found — check the key or library ID"
  else if status = 409 then some "Conflict — the library is currently locked; try again later"
  else if status = 412 then some "Precondition failed — item was modified by another client"
  else if status = 413 then some "Request too large"
  else if status = 429 then some "Rate limit exceeded"
  else if status = 503 then some "Zotero service temporarily unavailable"
  else none

/-- `ZoteroClient.throwOnError`: a success response passes through; otherwise
the body is read best-effort (`.catch(() => "")` becomes `getD ""`) and a
typed failure is produced, its reason drawn from `statusMessages` with the
generic `HTTP <code>` fallback. -/
def throwOnError (resp : Response) (context : String) : Except ZError Unit :=
  if resp.ok then Except.ok ()
  else
    Except.error
      { context := context,
        status := resp.status,
        reason := (statusMessages resp.status).getD ("HTTP " ++ toString resp.status),
        body := resp.bodyText.getD "" }

/-- The item payload fields `addItemToCollection` reads
(`item.data.collections` may be absent, `?? []`). -/
structure ItemData where
  key : String := ""
  itemType : String := ""
  contentType : Option String := none
  filename : Option String := none
  collections : Option (List String) := none
deriving Repr, DecidableEq

/-- A fetched item envelope: top-level key and version plus the data payload
(the version used for the precondition header is the top-level one). -/
structure ZoteroItem where
  key : String := ""
  version : Nat := 0
  data : ItemData := {}
deriving Repr, DecidableEq

/-- The PATCH request `addItemToCollection` sends: target item key, the
`If-Unmodified-Since-Version` header value (`String(item.version)`), and the
collection list in the body. -/
structure PatchCall where
  itemKey : String
  condVersion : String
  collections : List String
deriving Repr, DecidableEq

/-- Observable trace of one `addItemToCollection` call, after its `getItem`
fetch returned `item`: how many fetches the preceding read performed, the
PATCH it issued (if any), and the typed outcome. -/
structure AddItemTrace where
  getCalls : Nat
  patchCall : Option PatchCall
  result : Except ZError Unit
deriving Repr

/-- `ZoteroClient.addItemToCollection`: fetch the item (one request), return
at once when its collections already contain `collectionKey`; otherwise PATCH
the appended list under the `If-Unmodified-Since-Version` precondition and
classify the PATCH response through `throwOnError`. -/
def addItemToCollection (item : ZoteroItem) (itemKey collectionKey : String)
    (patchResp : Response) : AddItemTrace :=
  if (item.data.collections.getD []).contains collectionKey then
    { getCalls := 1, patchCall := none, result := Except.ok () }
  else
    { getCalls := 1,
      patchCall := some
        { itemKey := itemKey,
          condVersion := toString item.version,
          collections := (item.data.collections.getD []) ++ [collectionKey] },
      result := throwOnError patchResp
        ("addItemToCollection(" ++ itemKey ++ ")") }

/-- Fixture: the test item — version 5, already in collection COL00001. -/
def fixtureItem : ZoteroItem :=
  { key := "ITEM1234", version := 5,
    data := { key := "ITEM1234", itemType := "journalArticle",
              collections := some ["COL00001"] } }

/-- Fixture: a 412 PATCH response with a body diagnostic. -/
def resp412 : Response := { status := 412, bodyText := some "Version conflict" }

/-- The full-text bundle returned by the fulltext endpoint. -/
structure ZoteroFullText where
  content : String
  indexedPages : Option Nat := none
  totalPages : Option Nat := none
deriving Repr, DecidableEq

/-- Modelled from the spec: `ZoteroClient.getFullText` is absent from the
source snapshot (only its unit tests and its caller in `index.ts` appear).
Per the spec, derived-text retrieval returns the text bundle on success,
returns an explicit absence signal (`none`, not indexed yet) specifically for
a not-found (404) response instead of failing, and turns any other
non-success status into the typed failure of `throwOnError`.  The parsed
response payload is passed in as `payload`. -/
def getFullText (resp : Response) (payload : ZoteroFullText)
    (itemKey : String) : Except ZError (Option ZoteroFullText) :=
  if resp.status == 404 then Except.ok none
  else
    match throwOnError resp ("getFullText(" ++ itemKey ++ ")") with
    | Except.error e => Except.error e
    | Except.ok _ => Except.ok (some payload)

/-- Outcome classes of the `get_item_fulltext` tool handler. -/
inductive FulltextOutcome where
  | localText (content : String)
  | bundle (ft : ZoteroFullText)
  | noContent
  | failure (e : ZError)
deriving Repr, DecidableEq

/-- Remote half of the `get_item_fulltext` handler (`index.ts`): a `null`
bundle becomes the explicit no-content reply (not an error), a bundle is
rendered, and a thrown failure is caught into the error reply. -/
def getItemFulltextRemote (resp : Response) (payload : ZoteroFullText)
    (attachmentKey : String) : FulltextOutcome :=
  match getFullText resp payload attachmentKey with
  | Except.error e => FulltextOutcome.failure e
  | Except.ok none => FulltextOutcome.noContent
  | Except.ok (some ft) => FulltextOutcome.bundle ft

/-- Path of the local derived-text cache artifact:
`<dataDir>/storage/<key>/.zotero-ft-cache` (path separator written `/`). -/
def fulltextCachePath (dataDir key : String) : String :=
  dataDir ++ "/storage/" ++ key ++ "/.zotero-ft-cache"

/-- Local-first content step of the `get_item_fulltext` handler: when the
caller did not force remote resolution, the data directory is set, and the
cache file exists (`fs` returns its text), answer from the local artifact
with zero network calls; otherwise fall back to the remote path (one network
call).  `fs` models `existsSync` plus `readFileSync` of the local store. -/
def fulltextResolve (forceRemote : Bool) (dataDir : String)
    (fs : String → Option String) (attachmentKey : String) (resp : Response)
    (payload : ZoteroFullText) : FulltextOutcome × Nat :=
  if !forceRemote && dataDir != "" then
    match fs (fulltextCachePath dataDir attachmentKey) with
    | some content => (FulltextOutcome.localText content, 0)
    | none => (getItemFulltextRemote resp payload attachmentKey, 1)
  else (getItemFulltextRemote resp payload attachmentKey, 1)

/-- Result of `ZoteroClient.downloadAttachment` (content type, resolved
filename, base64 data). -/
structure DownloadResult where
  contentType : String
  filename : String
  data : String
deriving Repr, DecidableEq

/-- Outcome classes of the `read_attachment` tool handler. -/
inductive AttachmentOutcome where
  | localFile (path : String)
  | apiDownload (d : DownloadResult)
  | failure (e : ZError)
deriving Repr, DecidableEq

/-- Path of the local attachment artifact:
`<dataDir>/storage/<key>/<filename>` (path separator written `/`). -/
def attachmentLocalPath (dataDir key filename : String) : String :=
  dataDir ++ "/storage/" ++ key ++ "/" ++ filename

/-- Remote half of the `read_attachment` handler: the download either
succeeds or its thrown failure is caught into the error reply. -/
def readAttachmentRemote (dl : Except ZError DownloadResult) :
    AttachmentOutcome :=
  match dl with
  | Except.ok d => AttachmentOutcome.apiDownload d
  | Except.error e => AttachmentOutcome.failure e

/-- Local-first content step of the `read_attachment` handler: when remote
resolution is not forced, the filename is known, the data directory is set
and the local file exists, answer with the local path and zero network
calls; otherwise download through the API (one network call). -/
def readAttachmentResolve (forceRemote : Bool) (dataDir : String)
    (fsHas : String → Bool) (attachmentKey filename : String)
    (dl : Except ZError DownloadResult) : AttachmentOutcome × Nat :=
  if !forceRemote && filename != "" && dataDir != "" then
    if fsHas (attachmentLocalPath dataDir attachmentKey filename) then
      (AttachmentOutcome.localFile
        (attachmentLocalPath dataDir attachmentKey filename), 0)
    else (readAttachmentRemote dl, 1)
  else (readAttachmentRemote dl, 1)

/-- Fixture: a bare 404 response. -/
def resp404 : Response := { status := 404 }

/-- Fixture: a 403 response with a body. -/
def resp403 : Response := { status := 403, bodyText := some "Forbidden" }

/-- Fixture: the test full-text bundle. -/
def sampleFT : ZoteroFullText :=
  { content := "This is the full text content of the article.",
    indexedPages := some 10, totalPages := some 10 }

/-- Fixture: a local store holding exactly the derived-text cache of
ATCH1234. -/
def fsFix : String → Option String := fun p =>
  if p = fulltextCachePath "/data" "ATCH1234" then some "cached text" else none

/-- Fixture: a local store holding exactly the file of ATCH1234. -/
def fsHasFix : String → Bool := fun p =>
  p == attachmentLocalPath "/data" "ATCH1234" "paper.pdf"

/-- Fixture: a downloaded attachment. -/
def dlFix : DownloadResult :=
  { contentType := "application/pdf", filename := "paper.pdf",
    data := "ZmFrZS1wZGYtY29udGVudA==" }

/-- A paginated result page (`PaginatedResult<T>`). -/
structure PaginatedResult (α : Type) where
  items : List α
  totalResults : Nat
  offset : Nat
  limit : Nat
deriving Repr, DecidableEq

/-- A collection envelope (payload fields beyond the identity elided). -/
structure ZoteroCollection where
  key : String := ""
  version : Nat := 0
  name : String := ""
deriving Repr, DecidableEq

/-- `ZoteroClient.listCollections`: defaults `limit` to 25 and `offset` to 0,
fetches, classifies the response through `throwOnError`, and builds the page
whose `totalResults` is the parsed `Total-Results` header, falling back to
the returned item count when the header is absent. -/
def listCollections (limitP offsetP : Option Nat) (resp : Response)
    (body : List ZoteroCollection) :
    Except ZError (PaginatedResult ZoteroCollection) :=
  match throwOnError resp "listCollections" with
  | Except.error e => Except.error e
  | Except.ok _ =>
      Except.ok { items := body,
                  totalResults := resp.totalResults.getD body.length,
                  offset := offsetP.getD 0,
                  limit := limitP.getD 25 }

/-- Parameters of `ZoteroClient.searchItems`; optional fields default as in
the source (`qmode` titleCreatorYear, `sort` dateModified, `direction` desc,
`limit` 25, `offset` 0). -/
structure SearchParams where
  query : String
  qmode : Option String := none
  itemType : Option String := none
  sortBy : Option String := none
  direction : Option String := none
  limit : Option Nat := none
  offset : Option Nat := none
deriving Repr, DecidableEq

/-- `ZoteroClient.searchItems`: same page construction as `listCollections`
over the item search endpoint. -/
def searchItems (p : SearchParams) (resp : Response) (body : List ZoteroItem) :
    Except ZError (PaginatedResult ZoteroItem) :=
  match throwOnError resp "searchItems" with
  | Except.error e => Except.error e
  | Except.ok _ =>
      Except.ok { items := body,
                  totalResults := resp.totalResults.getD body.length,
                  offset := p.offset.getD 0,
                  limit := p.limit.getD 25 }

/-- Fixture: a success response reporting 42 total results. -/
def okTotal42 : Response := { status := 200, totalResults := some 42 }

/-- Fixture: one collection. -/
def colFix : ZoteroCollection :=
  { key := "COL00001", version := 1, name := "Test Collection" }

/-- One entry of the write-response failure map: numeric code and message. -/
structure WriteFailure where
  code : Nat
  message : String
deriving Repr, DecidableEq

/-- `ZoteroWriteResponse`: keyed maps from submission index to created key,
unchanged key, or failure. -/
structure ZoteroWriteResponse where
  success : List (String × String) := []
  unchanged : List (String × String) := []
  failed : List (String × WriteFailure) := []
deriving Repr, DecidableEq

/-- `Object.values(result.failed).map(f => f.message).join("; ")`. -/
def failedReasons (w : ZoteroWriteResponse) : String :=
  String.intercalate "; " (w.failed.map (fun f => f.2.message))

/-- The reply of a create tool handler: either the success reply (message
text plus the first created key, `Object.values(result.success)[0]`) or the
error reply (`isError: true`). -/
inductive CreateOutcome where
  | created (text : String) (key : Option String)
  | failure (text : String)
deriving Repr, DecidableEq

/-- `create_collection` handler (`index.ts`): a non-empty failure map is a
domain failure carrying the joined failure messages even though the HTTP
exchange succeeded; otherwise the success reply. -/
def createCollectionTool (name : String) (w : ZoteroWriteResponse) :
    CreateOutcome :=
  if w.failed.length > 0 then
    CreateOutcome.failure ("Failed to create collection: " ++ failedReasons w)
  else
    CreateOutcome.created
      ("Collection \"" ++ name ++ "\" created successfully")
      ((w.success.map Prod.snd).head?)

/-- `create_note` handler (`index.ts`): same failed-map check as
`create_collection`. -/
def createNoteTool (title : String) (w : ZoteroWriteResponse) :
    CreateOutcome :=
  if w.failed.length > 0 then
    CreateOutcome.failure ("Failed to create note: " ++ failedReasons w)
  else
    CreateOutcome.created
      ("Note \"" ++ title ++ "\" created successfully")
      ((w.success.map Prod.snd).head?)

/-- Fixture: a write response whose failure map holds submission index "0"
with code 400, as in the example scenario. -/
def failedWrite : ZoteroWriteResponse :=
  { failed := [("0", { code := 400, message := "Invalid name" })] }

/-- The governed send instant honours the whole remaining cooldown. -/
lemma backoffUntil_le_entrySendTime (st : RateState) (now : Nat) :
    st.backoffUntil ≤ entrySendTime st now := by
  unfold entrySendTime cooldownWaitEnd
  split_ifs <;> omega

/-- The governed send instant is at least the minimum interval after the last
recorded send, provided the clock did not run backwards. -/
lemma last_add_interval_le_entrySendTime (st : RateState) (now : Nat)
    (h : st.lastRequestTime ≤ now) :
    st.lastRequestTime + MIN_INTERVAL_MS ≤ entrySendTime st now := by
  unfold entrySendTime cooldownWaitEnd MIN_INTERVAL_MS
  split_ifs <;> omega

/-- Every `rateLimitedFetch` trace opens with the governed send instant. -/
lemma sendTimes_head (st : RateState) (now d1 : Nat) (r1 r2 : Response) :
    ∃ rest,
      (rateLimitedFetch st now d1 r1 r2).sendTimes = entrySendTime st now :: rest := by
  unfold rateLimitedFetch
  by_cases hq : (r1.status == 429) = true
  · rw [if_pos hq]; exact ⟨_, rfl⟩
  · rw [if_neg hq]; exact ⟨_, rfl⟩

/-- The recorded `lastRequestTime` after a `rateLimitedFetch` call is the
instant of the last request it sent. -/
lemma sendTimes_last (st : RateState) (now d1 : Nat) (r1 r2 : Response) :
    (rateLimitedFetch st now d1 r1 r2).sendTimes.getLast? =
      some (rateLimitedFetch st now d1 r1 r2).state.lastRequestTime := by
  unfold rateLimitedFetch
  by_cases hq : (r1.status == 429) = true
  · rw [if_pos hq]; rfl
  · rw [if_neg hq]; rfl

example : entrySendTime { lastRequestTime := 0, backoffUntil := 0 } 0 = 1000 := by
  decide

example : entrySendTime { lastRequestTime := 0, backoffUntil := 7000 } 500 = 7000 := by
  decide

example :
    (rateLimitedFetch { lastRequestTime := 0, backoffUntil := 0 } 0 0
      throttled2 okRes).sendTimes = [1000, 3000] := by
  decide

/-- C1 counterexample: with a throttling first response whose `Retry-After`
directive is 0 seconds and an instantaneous exchange, `rateLimitedFetch`
issues two consecutive requests at the same instant (gap 0), which is less
than the minimum interval — the in-call retry is not spaced by the governor. -/
theorem rateLimitedFetch_retry_gap_cx :
    (rateLimitedFetch { lastRequestTime := 0, backoffUntil := 0 } 0 0
        { status := 429, retryAfter := some 0 } okRes).sendTimes
      = [1000, 1000] ∧
    ¬ (1000 + MIN_INTERVAL_MS ≤ 1000) := by
  decide

/-- C1 (amended): every request issued through the governed entry of
`rateLimitedFetch` (the in-call 429 retry excepted) is sent at least
`MIN_INTERVAL_MS` after the previously recorded send timestamp and no
earlier than the active cooldown deadline; the state records the last send
instant, so consecutive calls chain this spacing. -/
theorem rateLimitedFetch_governed_spacing (st : RateState) (now d1 : Nat)
    (r1 r2 : Response) (h : st.lastRequestTime ≤ now) :
    ∃ s rest,
      (rateLimitedFetch st now d1 r1 r2).sendTimes = s :: rest ∧
      st.lastRequestTime + MIN_INTERVAL_MS ≤ s ∧
      st.backoffUntil ≤ s ∧
      (rateLimitedFetch st now d1 r1 r2).sendTimes.getLast? =
        some (rateLimitedFetch st now d1 r1 r2).state.lastRequestTime := by
  obtain ⟨rest, hrest⟩ := sendTimes_head st now d1 r1 r2
  exact ⟨entrySendTime st now, rest, hrest,
    last_add_interval_le_entrySendTime st now h,
    backoffUntil_le_entrySendTime st now,
    sendTimes_last st now d1 r1 r2⟩

/-- C1 witness: the amended spacing theorem applied at a concrete state. -/
theorem rateLimitedFetch_governed_spacing_wit :
    ({ lastRequestTime := 0, backoffUntil := 0 } : RateState).lastRequestTime ≤ 5 ∧
    (∃ s rest,
      (rateLimitedFetch { lastRequestTime := 0, backoffUntil := 0 } 5 0
          okRes okRes).sendTimes = s :: rest ∧
      ({ lastRequestTime := 0, backoffUntil := 0 } : RateState).lastRequestTime
        + MIN_INTERVAL_MS ≤ s ∧
      ({ lastRequestTime := 0, backoffUntil := 0 } : RateState).backoffUntil ≤ s ∧
      (rateLimitedFetch { lastRequestTime := 0, backoffUntil := 0 } 5 0
          okRes okRes).sendTimes.getLast? =
        some (rateLimitedFetch { lastRequestTime := 0, backoffUntil := 0 } 5 0
          okRes okRes).state.lastRequestTime) :=
  ⟨by decide,
   rateLimitedFetch_governed_spacing { lastRequestTime := 0, backoffUntil := 0 }
     5 0 okRes okRes (by decide)⟩

/-- C2: a 429 first response makes `rateLimitedFetch` sleep for the
`Retry-After` directive (5000 ms when the header is absent), record the new
send timestamp, and execute the request exactly one more time; that second
response is returned whatever it is, so a throttled retry surfaces to the
caller instead of looping. -/
theorem rateLimitedFetch_429_single_retry (st : RateState) (now d1 : Nat)
    (r1 r2 : Response) (h : r1.status = 429) :
    (rateLimitedFetch st now d1 r1 r2).response = r2 ∧
    (rateLimitedFetch st now d1 r1 r2).sendTimes =
      [entrySendTime st now, entrySendTime st now + d1 + retryWaitMs r1] ∧
    (rateLimitedFetch st now d1 r1 r2).state.lastRequestTime =
      entrySendTime st now + d1 + retryWaitMs r1 ∧
    (r1.retryAfter = none → retryWaitMs r1 = 5000) ∧
    (∀ n, r1.retryAfter = some n → retryWaitMs r1 = n * 1000) := by
  have hb : (r1.status == 429) = true := by rw [h]; rfl
  unfold rateLimitedFetch
  rw [if_pos hb]
  refine ⟨rfl, rfl, rfl, ?_, ?_⟩
  · intro hnone; unfold retryWaitMs; rw [hnone]
  · intro n hsome; unfold retryWaitMs; rw [hsome]

/-- C2 witness: the retry theorem at a concrete throttled exchange whose
retry is itself throttled. -/
theorem rateLimitedFetch_429_single_retry_wit :
    throttled2.status = 429 ∧
    ((rateLimitedFetch { lastRequestTime := 0, backoffUntil := 0 } 0 0
        throttled2 throttled2).response = throttled2 ∧
     (rateLimitedFetch { lastRequestTime := 0, backoffUntil := 0 } 0 0
        throttled2 throttled2).sendTimes =
       [entrySendTime { lastRequestTime := 0, backoffUntil := 0 } 0,
        entrySendTime { lastRequestTime := 0, backoffUntil := 0 } 0 + 0
          + retryWaitMs throttled2] ∧
     (rateLimitedFetch { lastRequestTime := 0, backoffUntil := 0 } 0 0
        throttled2 throttled2).state.lastRequestTime =
       entrySendTime { lastRequestTime := 0, backoffUntil := 0 } 0 + 0
         + retryWaitMs throttled2 ∧
     (throttled2.retryAfter = none → retryWaitMs throttled2 = 5000) ∧
     (∀ n, throttled2.retryAfter = some n → retryWaitMs throttled2 = n * 1000)) :=
  ⟨rfl,
   rateLimitedFetch_429_single_retry { lastRequestTime := 0, backoffUntil := 0 }
     0 0 throttled2 throttled2 rfl⟩

/-- C5 counterexample: a response that carries both a 10 second `Backoff`
directive and a 429 status sets the cooldown deadline 10 s past arrival, yet
the next request — the in-call retry, sent after only the 0 second
`Retry-After` wait — goes out at the arrival instant itself, not 10 s later. -/
theorem backoff_retry_next_request_cx :
    (rateLimitedFetch { lastRequestTime := 0, backoffUntil := 0 } 0 0
        { status := 429, backoffHeader := some 10, retryAfter := some 0 }
        okRes).state.backoffUntil = 11000 ∧
    (rateLimitedFetch { lastRequestTime := 0, backoffUntil := 0 } 0 0
        { status := 429, backoffHeader := some 10, retryAfter := some 0 }
        okRes).sendTimes = [1000, 1000] ∧
    ¬ (1000 + 10 * 1000 ≤ 1000) := by
  decide

/-- C5 (amended): a non-throttling response carrying a `Backoff` directive of
`n` seconds sets the cooldown deadline to its arrival instant plus
`n * 1000` ms, and the next request the instance issues — the first send of
any subsequent `rateLimitedFetch` call — goes out no earlier than that
deadline, hence at least `n` seconds after the directive arrived. -/
theorem backoff_sets_cooldown_deadline (st : RateState) (now d1 n : Nat)
    (r1 r2 : Response) (hB : r1.backoffHeader = some n) (h429 : r1.status ≠ 429) :
    (rateLimitedFetch st now d1 r1 r2).state.backoffUntil =
      (entrySendTime st now + d1) + n * 1000 ∧
    ∀ now2 d2 : Nat, ∀ q1 q2 : Response,
      ∃ s rest,
        (rateLimitedFetch (rateLimitedFetch st now d1 r1 r2).state
            now2 d2 q1 q2).sendTimes = s :: rest ∧
        (entrySendTime st now + d1) + n * 1000 ≤ s := by
  have hb : (r1.status == 429) = false := by
    simpa using h429
  have hbo : (rateLimitedFetch st now d1 r1 r2).state.backoffUntil =
      (entrySendTime st now + d1) + n * 1000 := by
    unfold rateLimitedFetch
    rw [if_neg (by simp [hb])]
    simp [backoffAfter, hB]
  refine ⟨hbo, ?_⟩
  intro now2 d2 q1 q2
  have hle := backoffUntil_le_entrySendTime
    (rateLimitedFetch st now d1 r1 r2).state now2
  rw [hbo] at hle
  obtain ⟨rest, hrest⟩ :=
    sendTimes_head (rateLimitedFetch st now d1 r1 r2).state now2 d2 q1 q2
  exact ⟨_, rest, hrest, hle⟩

/-- C5 witness: the cooldown-deadline theorem at a concrete backoff response. -/
theorem backoff_sets_cooldown_deadline_wit :
    (backoff3.backoffHeader = some 3 ∧ backoff3.status ≠ 429) ∧
    ((rateLimitedFetch { lastRequestTime := 0, backoffUntil := 0 } 0 0
        backoff3 okRes).state.backoffUntil =
      (entrySendTime { lastRequestTime := 0, backoffUntil := 0 } 0 + 0)
        + 3 * 1000 ∧
     ∀ now2 d2 : Nat, ∀ q1 q2 : Response,
      ∃ s rest,
        (rateLimitedFetch
            (rateLimitedFetch { lastRequestTime := 0, backoffUntil := 0 } 0 0
              backoff3 okRes).state now2 d2 q1 q2).sendTimes = s :: rest ∧
        (entrySendTime { lastRequestTime := 0, backoffUntil := 0 } 0 + 0)
          + 3 * 1000 ≤ s) :=
  ⟨⟨rfl, by decide⟩,
   backoff_sets_cooldown_deadline { lastRequestTime := 0, backoffUntil := 0 }
     0 0 3 backoff3 okRes rfl (by decide)⟩

/-- C10: on the 429 retry path, only the `Retry-After` sleep precedes the
retry — its send instant is the first arrival plus `retryWaitMs`, with
neither the cooldown wait nor the minimum-interval wait reapplied; the final
cooldown deadline is computed from the first response alone, the retry
response influences neither the state nor the send instants, and of the rate
state only the send timestamp is updated. -/
theorem rateLimitedFetch_retry_frame (st : RateState) (now d1 : Nat)
    (r1 r2 : Response) (h : r1.status = 429) :
    (rateLimitedFetch st now d1 r1 r2).sendTimes.getLast? =
      some (entrySendTime st now + d1 + retryWaitMs r1) ∧
    (rateLimitedFetch st now d1 r1 r2).state.backoffUntil =
      backoffAfter st (entrySendTime st now + d1) r1 ∧
    (∀ r2' : Response,
      (rateLimitedFetch st now d1 r1 r2').state =
        (rateLimitedFetch st now d1 r1 r2).state ∧
      (rateLimitedFetch st now d1 r1 r2').sendTimes =
        (rateLimitedFetch st now d1 r1 r2).sendTimes) ∧
    (rateLimitedFetch st now d1 r1 r2).state.lastRequestTime =
      entrySendTime st now + d1 + retryWaitMs r1 := by
  have hb : (r1.status == 429) = true := by rw [h]; rfl
  unfold rateLimitedFetch
  rw [if_pos hb]
  refine ⟨rfl, rfl, ?_, rfl⟩
  intro r2'
  rw [if_pos hb]
  exact ⟨rfl, rfl⟩

/-- C10 witness: the retry frame theorem at a concrete throttled exchange
whose retry response itself carries a `Backoff` directive and a 429 status
(both ignored). -/
theorem rateLimitedFetch_retry_frame_wit :
    throttled2.status = 429 ∧
    ((rateLimitedFetch { lastRequestTime := 0, backoffUntil := 0 } 0 0
        throttled2
        { status := 429, backoffHeader := some 99 }).sendTimes.getLast? =
      some (entrySendTime { lastRequestTime := 0, backoffUntil := 0 } 0 + 0
        + retryWaitMs throttled2) ∧
     (rateLimitedFetch { lastRequestTime := 0, backoffUntil := 0 } 0 0
        throttled2
        { status := 429, backoffHeader := some 99 }).state.backoffUntil =
      backoffAfter { lastRequestTime := 0, backoffUntil := 0 }
        (entrySendTime { lastRequestTime := 0, backoffUntil := 0 } 0 + 0)
        throttled2 ∧
     (∀ r2' : Response,
      (rateLimitedFetch { lastRequestTime := 0, backoffUntil := 0 } 0 0
          throttled2 r2').state =
        (rateLimitedFetch { lastRequestTime := 0, backoffUntil := 0 } 0 0
          throttled2 { status := 429, backoffHeader := some 99 }).state ∧
      (rateLimitedFetch { lastRequestTime := 0, backoffUntil := 0 } 0 0
          throttled2 r2').sendTimes =
        (rateLimitedFetch { lastRequestTime := 0, backoffUntil := 0 } 0 0
          throttled2 { status := 429, backoffHeader := some 99 }).sendTimes) ∧
     (rateLimitedFetch { lastRequestTime := 0, backoffUntil := 0 } 0 0
        throttled2
        { status := 429, backoffHeader := some 99 }).state.lastRequestTime =
      entrySendTime { lastRequestTime := 0, backoffUntil := 0 } 0 + 0
        + retryWaitMs throttled2) :=
  ⟨rfl,
   rateLimitedFetch_retry_frame { lastRequestTime := 0, backoffUntil := 0 }
     0 0 throttled2 { status := 429, backoffHeader := some 99 } rfl⟩

example :
    throwOnError { status := 500, bodyText := some "Internal" } "listCollections"
      = Except.error { context := "listCollections", status := 500,
                       reason := "HTTP 500", body := "Internal" } := rfl

example : throwOnError { status := 204 } "x" = Except.ok () := rfl

/-- C4: `throwOnError` lets every 2xx response pass through unchanged; for
every non-success status it produces exactly one typed failure carrying the
operation context, the status, the body text appended best-effort (an empty
diagnostic when the body read fails, never an escalation), and the reason
from the fixed table for 400, 403, 404, 409, 412, 413, 429 and 503 with the
generic `HTTP <code>` fallback for every other status. -/
theorem throwOnError_taxonomy (resp : Response) (ctx : String) :
    (200 ≤ resp.status → resp.status ≤ 299 → throwOnError resp ctx = Except.ok ()) ∧
    (resp.ok = false →
      ∃ e, throwOnError resp ctx = Except.error e ∧
        e.context = ctx ∧
        e.status = resp.status ∧
        e.body = resp.bodyText.getD "" ∧
        (resp.bodyText = none → e.body = "") ∧
        (resp.status = 400 → e.reason = "Bad request — check parameters") ∧
        (resp.status = 403 → e.reason = "Forbidden — invalid API key or insufficient permissions") ∧
        (resp.status = 404 → e.reason = "Not found — check the key or library ID") ∧
        (resp.status = 409 → e.reason = "Conflict — the library is currently locked; try again later") ∧
        (resp.status = 412 → e.reason = "Precondition failed — item was modified by another client") ∧
        (resp.status = 413 → e.reason = "Request too large") ∧
        (resp.status = 429 → e.reason = "Rate limit exceeded") ∧
        (resp.status = 503 → e.reason = "Zotero service temporarily unavailable") ∧
        (resp.status ≠ 400 → resp.status ≠ 403 → resp.status ≠ 404 →
         resp.status ≠ 409 → resp.status ≠ 412 → resp.status ≠ 413 →
         resp.status ≠ 429 → resp.status ≠ 503 →
         e.reason = "HTTP " ++ toString resp.status)) := by
  constructor
  · intro h1 h2
    have hok : resp.ok = true := by
      unfold Response.ok
      simp only [Bool.and_eq_true, decide_eq_true_eq]
      omega
    unfold throwOnError
    rw [if_pos hok]
  · intro hok
    unfold throwOnError
    rw [if_neg (by simp [hok])]
    refine ⟨_, rfl, rfl, rfl, rfl, ?_, ?_, ?_, ?_, ?_, ?_, ?_, ?_, ?_, ?_⟩
    · intro hnone; simp [hnone]
    all_goals intro h
    · simp [statusMessages, h]
    · simp [statusMessages, h]
    · simp [statusMessages, h]
    · simp [statusMessages, h]
    · simp [statusMessages, h]
    · simp [statusMessages, h]
    · simp [statusMessages, h]
    · simp [statusMessages, h]
    · intro h403 h404 h409 h412 h413 h429 h503
      simp [statusMessages, h, h403, h404, h409, h412, h413, h429, h503]

/-- C4 witness: the taxonomy theorem at a concrete 412 response whose body
read fails. -/
theorem throwOnError_taxonomy_wit :
    ((({ status := 412, bodyText := none } : Response)).ok = false) ∧
    (∃ e, throwOnError { status := 412, bodyText := none } "patch" = Except.error e ∧
        e.context = "patch" ∧
        e.status = ({ status := 412, bodyText := none } : Response).status ∧
        e.body = ({ status := 412, bodyText := none } : Response).bodyText.getD "" ∧
        (({ status := 412, bodyText := none } : Response).bodyText = none → e.body = "") ∧
        (({ status := 412, bodyText := none } : Response).status = 400 → e.reason = "Bad request — check parameters") ∧
        (({ status := 412, bodyText := none } : Response).status = 403 → e.reason = "Forbidden — invalid API key or insufficient permissions") ∧
        (({ status := 412, bodyText := none } : Response).status = 404 → e.reason = "Not found — check the key or library ID") ∧
        (({ status := 412, bodyText := none } : Response).status = 409 → e.reason = "Conflict — the library is currently locked; try again later") ∧
        (({ status := 412, bodyText := none } : Response).status = 412 → e.reason = "Precondition failed — item was modified by another client") ∧
        (({ status := 412, bodyText := none } : Response).status = 413 → e.reason = "Request too large") ∧
        (({ status := 412, bodyText := none } : Response).status = 429 → e.reason = "Rate limit exceeded") ∧
        (({ status := 412, bodyText := none } : Response).status = 503 → e.reason = "Zotero service temporarily unavailable") ∧
        (({ status := 412, bodyText := none } : Response).status ≠ 400 →
         ({ status := 412, bodyText := none } : Response).status ≠ 403 →
         ({ status := 412, bodyText := none } : Response).status ≠ 404 →
         ({ status := 412, bodyText := none } : Response).status ≠ 409 →
         ({ status := 412, bodyText := none } : Response).status ≠ 412 →
         ({ status := 412, bodyText := none } : Response).status ≠ 413 →
         ({ status := 412, bodyText := none } : Response).status ≠ 429 →
         ({ status := 412, bodyText := none } : Response).status ≠ 503 →
         e.reason = "HTTP " ++ toString ({ status := 412, bodyText := none } : Response).status)) :=
  ⟨by decide,
   (throwOnError_taxonomy { status := 412, bodyText := none } "patch").2 (by decide)⟩

example :
    (addItemToCollection fixtureItem "ITEM1234" "COL00001" okRes).patchCall
      = none := rfl

example :
    (addItemToCollection fixtureItem "ITEM1234" "NEWCOL01"
        { status := 204 }).patchCall
      = some { itemKey := "ITEM1234", condVersion := "5",
               collections := ["COL00001", "NEWCOL01"] } := rfl

/-- C3: when the fetched item already lists the collection,
`addItemToCollection` performs the single fetch and no PATCH and succeeds;
otherwise it PATCHes with the `If-Unmodified-Since-Version` header equal to
the version observed in the fetch, and a 412 PATCH response surfaces as the
precondition-failed typed failure, not the generic `HTTP 412` one. -/
theorem addItemToCollection_conditional (item : ZoteroItem)
    (itemKey collectionKey : String) (resp : Response) :
    ((item.data.collections.getD []).contains collectionKey = true →
      (addItemToCollection item itemKey collectionKey resp).patchCall = none ∧
      (addItemToCollection item itemKey collectionKey resp).getCalls = 1 ∧
      (addItemToCollection item itemKey collectionKey resp).result = Except.ok ()) ∧
    ((item.data.collections.getD []).contains collectionKey = false →
      ∃ p, (addItemToCollection item itemKey collectionKey resp).patchCall = some p ∧
        p.condVersion = toString item.version ∧
        p.collections = (item.data.collections.getD []) ++ [collectionKey] ∧
        (resp.status = 412 →
          ∃ e, (addItemToCollection item itemKey collectionKey resp).result =
              Except.error e ∧
            e.reason = "Precondition failed — item was modified by another client" ∧
            e.reason ≠ "HTTP " ++ toString resp.status)) := by
  constructor
  · intro hmem
    unfold addItemToCollection
    rw [if_pos hmem]
    exact ⟨rfl, rfl, rfl⟩
  · intro hmem
    unfold addItemToCollection
    rw [if_neg (by rw [hmem]; decide)]
    refine ⟨_, rfl, rfl, rfl, ?_⟩
    intro h412
    have hok : resp.ok = false := by
      unfold Response.ok
      rw [h412]
      decide
    unfold throwOnError
    rw [if_neg (by rw [hok]; decide)]
    refine ⟨_, rfl, ?_, ?_⟩
    · show (statusMessages resp.status).getD ("HTTP " ++ toString resp.status) = _
      rw [h412]
      decide
    · show (statusMessages resp.status).getD ("HTTP " ++ toString resp.status) ≠ _
      rw [h412]
      decide

/-- C3 witness: the conditional-patch theorem applied once to an item already
in the collection (no PATCH) and once to a missing collection with a 412
PATCH response. -/
theorem addItemToCollection_conditional_wit :
    ((fixtureItem.data.collections.getD []).contains "COL00001" = true ∧
     ((addItemToCollection fixtureItem "ITEM1234" "COL00001" okRes).patchCall = none ∧
      (addItemToCollection fixtureItem "ITEM1234" "COL00001" okRes).getCalls = 1 ∧
      (addItemToCollection fixtureItem "ITEM1234" "COL00001" okRes).result =
        Except.ok ())) ∧
    ((fixtureItem.data.collections.getD []).contains "NEWCOL01" = false ∧
     ∃ p, (addItemToCollection fixtureItem "ITEM1234" "NEWCOL01" resp412).patchCall
            = some p ∧
       p.condVersion = toString fixtureItem.version ∧
       p.collections = (fixtureItem.data.collections.getD []) ++ ["NEWCOL01"] ∧
       (resp412.status = 412 →
         ∃ e, (addItemToCollection fixtureItem "ITEM1234" "NEWCOL01" resp412).result
                = Except.error e ∧
           e.reason = "Precondition failed — item was modified by another client" ∧
           e.reason ≠ "HTTP " ++ toString resp412.status)) :=
  ⟨⟨by decide,
    (addItemToCollection_conditional fixtureItem "ITEM1234" "COL00001" okRes).1
      (by decide)⟩,
   ⟨by decide,
    (addItemToCollection_conditional fixtureItem "ITEM1234" "NEWCOL01" resp412).2
      (by decide)⟩⟩

/-- C6: derived-text retrieval returns the bundle on success; a 404 yields
the explicit absence signal (`none`, rendered as the no-content reply, not a
failure); any other non-success status is a typed failure — in particular a
403 carries the authorization reason. -/
theorem getFullText_not_found (resp : Response) (payload : ZoteroFullText)
    (key : String) :
    (resp.status = 404 →
      getFullText resp payload key = Except.ok none ∧
      getItemFulltextRemote resp payload key = FulltextOutcome.noContent) ∧
    (resp.ok = true →
      getFullText resp payload key = Except.ok (some payload) ∧
      getItemFulltextRemote resp payload key = FulltextOutcome.bundle payload) ∧
    (resp.ok = false → resp.status ≠ 404 →
      ∃ e, getFullText resp payload key = Except.error e ∧
        e.status = resp.status ∧
        getItemFulltextRemote resp payload key = FulltextOutcome.failure e) ∧
    (resp.status = 403 →
      ∃ e, getFullText resp payload key = Except.error e ∧
        e.reason = "Forbidden — invalid API key or insufficient permissions") := by
  refine ⟨?_, ?_, ?_, ?_⟩
  · intro h
    have hb : (resp.status == 404) = true := by rw [h]; rfl
    unfold getItemFulltextRemote getFullText
    rw [if_pos hb]
    exact ⟨rfl, rfl⟩
  · intro hok
    have h1 : 200 ≤ resp.status ∧ resp.status ≤ 299 := by
      unfold Response.ok at hok
      simpa [Bool.and_eq_true, decide_eq_true_eq] using hok
    have hne : resp.status ≠ 404 := by omega
    have hb : (resp.status == 404) = false := by simpa using hne
    unfold getItemFulltextRemote getFullText throwOnError
    rw [if_neg (by rw [hb]; decide), if_pos hok]
    exact ⟨rfl, rfl⟩
  · intro hok hne
    have hb : (resp.status == 404) = false := by simpa using hne
    unfold getItemFulltextRemote getFullText throwOnError
    rw [if_neg (by rw [hb]; decide), if_neg (by rw [hok]; decide)]
    exact ⟨_, rfl, rfl, rfl⟩
  · intro h403
    have hok : resp.ok = false := by unfold Response.ok; rw [h403]; decide
    have hb : (resp.status == 404) = false := by rw [h403]; rfl
    unfold getFullText throwOnError
    rw [if_neg (by rw [hb]; decide), if_neg (by rw [hok]; decide)]
    refine ⟨_, rfl, ?_⟩
    show (statusMessages resp.status).getD ("HTTP " ++ toString resp.status) = _
    rw [h403]
    decide

/-- C6 witness: the derived-text theorem at a concrete 404 (absence, not
failure) and at a concrete 403 (authorization failure). -/
theorem getFullText_not_found_wit :
    (resp404.status = 404 ∧
      (getFullText resp404 sampleFT "NOTEXT" = Except.ok none ∧
       getItemFulltextRemote resp404 sampleFT "NOTEXT"
         = FulltextOutcome.noContent)) ∧
    (resp403.status = 403 ∧
      ∃ e, getFullText resp403 sampleFT "BAD" = Except.error e ∧
        e.reason = "Forbidden — invalid API key or insufficient permissions") :=
  ⟨⟨rfl, (getFullText_not_found resp404 sampleFT "NOTEXT").1 rfl⟩,
   ⟨rfl, (getFullText_not_found resp403 sampleFT "BAD").2.2.2 rfl⟩⟩

/-- C7: for both content-retrieval handlers, a present local artifact is used
with zero network calls for that artifact unless remote resolution is
forced, and forcing remote always takes the network path (one call) even
when a local artifact exists. -/
theorem localFirst_resolution (forceRemote : Bool) (dataDir : String)
    (fs : String → Option String) (fsHas : String → Bool)
    (attachmentKey filename : String) (resp : Response)
    (payload : ZoteroFullText) (dl : Except ZError DownloadResult) :
    (∀ c, forceRemote = false → dataDir ≠ "" →
      fs (fulltextCachePath dataDir attachmentKey) = some c →
      fulltextResolve forceRemote dataDir fs attachmentKey resp payload
        = (FulltextOutcome.localText c, 0)) ∧
    (forceRemote = true →
      fulltextResolve forceRemote dataDir fs attachmentKey resp payload
        = (getItemFulltextRemote resp payload attachmentKey, 1)) ∧
    (forceRemote = false → filename ≠ "" → dataDir ≠ "" →
      fsHas (attachmentLocalPath dataDir attachmentKey filename) = true →
      readAttachmentResolve forceRemote dataDir fsHas attachmentKey filename dl
        = (AttachmentOutcome.localFile
            (attachmentLocalPath dataDir attachmentKey filename), 0)) ∧
    (forceRemote = true →
      readAttachmentResolve forceRemote dataDir fsHas attachmentKey filename dl
        = (readAttachmentRemote dl, 1)) := by
  refine ⟨?_, ?_, ?_, ?_⟩
  · intro c hfr hdd hfs
    subst hfr
    have hd : (dataDir != "") = true := by simpa using hdd
    unfold fulltextResolve
    rw [if_pos (by simp [hd]), hfs]
  · intro hfr
    subst hfr
    unfold fulltextResolve
    rw [if_neg (by simp)]
  · intro hfr hfn hdd hfs
    subst hfr
    have hd : (dataDir != "") = true := by simpa using hdd
    have hf : (filename != "") = true := by simpa using hfn
    unfold readAttachmentResolve
    rw [if_pos (by simp [hd, hf]), if_pos hfs]
  · intro hfr
    subst hfr
    unfold readAttachmentResolve
    rw [if_neg (by simp)]

/-- C7 witness: the local-first theorem at a concrete store — a local cache
hit without forcing, and a forced-remote download despite the local file. -/
theorem localFirst_resolution_wit :
    ((false = false) ∧ ("/data" : String) ≠ "" ∧
      fsFix (fulltextCachePath "/data" "ATCH1234") = some "cached text" ∧
      fulltextResolve false "/data" fsFix "ATCH1234" okRes sampleFT
        = (FulltextOutcome.localText "cached text", 0)) ∧
    ((true = true) ∧
      fsHasFix (attachmentLocalPath "/data" "ATCH1234" "paper.pdf") = true ∧
      readAttachmentResolve true "/data" fsHasFix "ATCH1234" "paper.pdf"
          (Except.ok dlFix)
        = (readAttachmentRemote (Except.ok dlFix), 1)) :=
  ⟨⟨rfl, by decide, by decide,
    (localFirst_resolution false "/data" fsFix fsHasFix "ATCH1234" "paper.pdf"
      okRes sampleFT (Except.ok dlFix)).1 "cached text" rfl (by decide)
      (by decide)⟩,
   ⟨rfl, by decide,
    (localFirst_resolution true "/data" fsFix fsHasFix "ATCH1234" "paper.pdf"
      okRes sampleFT (Except.ok dlFix)).2.2.2 rfl⟩⟩

/-- C8: on a success response, both list and search return a page whose
`offset` and `limit` equal the requested values (0 and 25 when omitted),
whose `totalResults` is the `Total-Results` header value whatever the number
of returned items, falling back to the returned item count when the header
is absent. -/
theorem page_fields (limitP offsetP : Option Nat) (p : SearchParams)
    (resp : Response) (cols : List ZoteroCollection) (its : List ZoteroItem)
    (hok : resp.ok = true) :
    (∃ page, listCollections limitP offsetP resp cols = Except.ok page ∧
      page.offset = offsetP.getD 0 ∧
      page.limit = limitP.getD 25 ∧
      page.items = cols ∧
      (∀ t, resp.totalResults = some t → page.totalResults = t) ∧
      (resp.totalResults = none → page.totalResults = cols.length)) ∧
    (∃ page, searchItems p resp its = Except.ok page ∧
      page.offset = p.offset.getD 0 ∧
      page.limit = p.limit.getD 25 ∧
      page.items = its ∧
      (∀ t, resp.totalResults = some t → page.totalResults = t) ∧
      (resp.totalResults = none → page.totalResults = its.length)) := by
  constructor
  · unfold listCollections throwOnError
    rw [if_pos hok]
    refine ⟨_, rfl, rfl, rfl, rfl, ?_, ?_⟩
    · intro t ht; simp [ht]
    · intro ht; simp [ht]
  · unfold searchItems throwOnError
    rw [if_pos hok]
    refine ⟨_, rfl, rfl, rfl, rfl, ?_, ?_⟩
    · intro t ht; simp [ht]
    · intro ht; simp [ht]

/-- C8 witness: the page-fields theorem at limit 10 / offset 5 against a
response reporting total 42 while returning a single collection, and a
default-parameter search. -/
theorem page_fields_wit :
    okTotal42.ok = true ∧
    ((∃ page, listCollections (some 10) (some 5) okTotal42 [colFix]
        = Except.ok page ∧
      page.offset = (some 5).getD 0 ∧
      page.limit = (some 10).getD 25 ∧
      page.items = [colFix] ∧
      (∀ t, okTotal42.totalResults = some t → page.totalResults = t) ∧
      (okTotal42.totalResults = none → page.totalResults = [colFix].length)) ∧
     (∃ page, searchItems { query := "test" } okTotal42 [] = Except.ok page ∧
      page.offset = ({ query := "test" } : SearchParams).offset.getD 0 ∧
      page.limit = ({ query := "test" } : SearchParams).limit.getD 25 ∧
      page.items = ([] : List ZoteroItem) ∧
      (∀ t, okTotal42.totalResults = some t → page.totalResults = t) ∧
      (okTotal42.totalResults = none →
        page.totalResults = ([] : List ZoteroItem).length))) :=
  ⟨by decide,
   page_fields (some 10) (some 5) { query := "test" } okTotal42 [colFix] []
     (by decide)⟩

/-- C9: both create tools report a domain failure carrying the failure
map's message(s) whenever the failed map is non-empty, and report success
exactly when the failed map is empty. -/
theorem create_failed_map (name title : String) (w : ZoteroWriteResponse) :
    (w.failed ≠ [] →
      createCollectionTool name w =
        CreateOutcome.failure ("Failed to create collection: " ++ failedReasons w) ∧
      createNoteTool title w =
        CreateOutcome.failure ("Failed to create note: " ++ failedReasons w)) ∧
    (w.failed = [] →
      createCollectionTool name w =
        CreateOutcome.created ("Collection \"" ++ name ++ "\" created successfully")
          ((w.success.map Prod.snd).head?) ∧
      createNoteTool title w =
        CreateOutcome.created ("Note \"" ++ title ++ "\" created successfully")
          ((w.success.map Prod.snd).head?)) ∧
    (∀ txt k, createCollectionTool name w = CreateOutcome.created txt k →
      w.failed = []) := by
  refine ⟨?_, ?_, ?_⟩
  · intro hne
    have hl : w.failed.length > 0 := List.length_pos.mpr hne
    unfold createCollectionTool createNoteTool
    rw [if_pos hl, if_pos hl]
    exact ⟨rfl, rfl⟩
  · intro he
    have hl : ¬ w.failed.length > 0 := by rw [he]; decide
    unfold createCollectionTool createNoteTool
    rw [if_neg hl, if_neg hl]
    exact ⟨rfl, rfl⟩
  · intro txt k hcr
    by_contra hne
    have hl : w.failed.length > 0 := List.length_pos.mpr hne
    unfold createCollectionTool at hcr
    rw [if_pos hl] at hcr
    exact CreateOutcome.noConfusion hcr

/-- C9 witness: the failed-map theorem at the example scenario (index "0"
mapped to code 400) and at an empty failed map. -/
theorem create_failed_map_wit :
    (failedWrite.failed ≠ [] ∧
      (createCollectionTool "My Collection" failedWrite =
        CreateOutcome.failure
          ("Failed to create collection: " ++ failedReasons failedWrite) ∧
       createNoteTool "My Note" failedWrite =
        CreateOutcome.failure
          ("Failed to create note: " ++ failedReasons failedWrite))) ∧
    (({ success := [("0", "NEW12345")] } : ZoteroWriteResponse).failed = [] ∧
      (createCollectionTool "My Collection" { success := [("0", "NEW12345")] } =
        CreateOutcome.created "Collection \"My Collection\" created successfully"
          ((({ success := [("0", "NEW12345")] } :
              ZoteroWriteResponse).success.map Prod.snd).head?) ∧
       createNoteTool "My Note" { success := [("0", "NEW12345")] } =
        CreateOutcome.created "Note \"My Note\" created successfully"
          ((({ success := [("0", "NEW12345")] } :
              ZoteroWriteResponse).success.map Prod.snd).head?))) :=
  ⟨⟨by decide,
    (create_failed_map "My Collection" "My Note" failedWrite).1 (by decide)⟩,
   ⟨rfl,
    (create_failed_map "My Collection" "My Note"
      { success := [("0", "NEW12345")] }).2.1 rfl⟩⟩
